import Mathlib

/-!
Verification model of the email engine (FastAPI + IMAP/SMTP bridge).

The definitions below are a shallow embedding of the synchronization core in
src/app/services/email_service.py and of the listing routes in
src/app/api/routes/emails.py.  Network effects (SMTP transmission, IMAP
connect / select / search / fetch / append / create) are modelled by
environment records whose fields give the outcome the live server would
produce for each protocol call; the local durable store (the emails and
attachments tables) is modelled as an explicit value threaded through the
operations.  MIME byte-level encoding and header decoding are outside the
claims considered here: the decoded header data a fetch would yield is part
of the environment.
-/

namespace EmailEngine

/-- Raw byte content of an attachment blob, as a list of byte values. -/
abbrev Bytes := List Nat

/-- The fields of the User model that the engine reads: primary key and the
account email address (used as From and as the SMTP/IMAP login). -/
structure UserT where
  id : Nat
  email : String
deriving DecidableEq, Repr

/-- One row of the emails table: the DurableMessageRecord of the spec
(src/app/db/models/email.py, class Email).  Address lists are stored
serialized, as in the source. -/
structure EmailRecord where
  id : Nat
  userId : Nat
  folder : String
  subject : Option String
  body : Option String
  fromAddress : String
  toAddresses : String
  ccAddresses : String
  bccAddresses : String
  isRead : Bool
deriving DecidableEq, Repr

/-- One row of the attachments table (class Attachment). -/
structure AttachmentRecord where
  emailId : Nat
  filename : String
  contentType : Option String
  blob : Bytes
deriving DecidableEq, Repr

/-- The local durable store: both tables plus the next primary key that a
flush would assign. -/
structure Store where
  nextId : Nat
  emails : List EmailRecord
  atts : List AttachmentRecord
deriving DecidableEq, Repr

/-- JSON string escaping for one character, as json.dumps performs it on the
address strings (only the quote and backslash escapes matter for plain
addresses). -/
def escapeJsonChar (c : Char) : String :=
  if c = '\\' then "\\\\"
  else if c = '\"' then "\\\""
  else String.singleton c

/-- JSON escaping of a whole string. -/
def escapeJson (s : String) : String :=
  String.join (s.toList.map escapeJsonChar)

/-- Embeds _serialize_addresses: json.dumps(addrs) if addrs else "[]". -/
def serializeAddresses (addrs : List String) : String :=
  if addrs.isEmpty then "[]"
  else "[" ++ String.intercalate ", " (addrs.map (fun a => "\"" ++ escapeJson a ++ "\"")) ++ "]"

/-- Embeds db.get(Email, email_id): primary-key lookup in the emails table. -/
def findEmail (st : Store) (emailId : Nat) : Option EmailRecord :=
  st.emails.find? (fun e => e.id == emailId)

/-- Mutation of the row with the given primary key (the ORM updates the one
row db.get returned; the model replaces the first list entry with that id). -/
def replaceFirstById : List EmailRecord → Nat → EmailRecord → List EmailRecord
  | [], _, _ => []
  | e :: rest, i, e2 =>
    if e.id == i then e2 :: rest
    else e :: replaceFirstById rest i e2

/-- Embeds move_email_db: return None and leave the store unchanged unless a
row with that id exists and belongs to the caller; otherwise set its folder. -/
def move_email_db (st : Store) (user : UserT) (emailId : Nat) (targetFolder : String) :
    Option EmailRecord × Store :=
  match findEmail st emailId with
  | none => (none, st)
  | some e =>
    if e.userId == user.id then
      let e2 := { e with folder := targetFolder }
      (some e2, { st with emails := replaceFirstById st.emails emailId e2 })
    else (none, st)

/-- Embeds set_read_flag_db, with the same ownership guard as move_email_db. -/
def set_read_flag_db (st : Store) (user : UserT) (emailId : Nat) (isRead : Bool) :
    Option EmailRecord × Store :=
  match findEmail st emailId with
  | none => (none, st)
  | some e =>
    if e.userId == user.id then
      let e2 := { e with isRead := isRead }
      (some e2, { st with emails := replaceFirstById st.emails emailId e2 })
    else (none, st)

/-! ### Send-append coordinator (send_email, lines 129-388)

The SMTP step either delivers the encoded message or raises; the IMAP mirror
step is a ladder of append attempts over candidate Sent mailboxes, with up to
max_retries = 2 connection cycles.  Each protocol call outcome is given by
the environment; the model records the calls performed in an event log so
that ordering and attempt structure are provable. -/

/-- Outcome of one IMAP command: an OK status, a non-OK status (rejection),
or a raised exception whose message does or does not contain "timed out". -/
inductive CallOutcome
  | ok
  | no
  | raiseTimeout
  | raiseOther
deriving DecidableEq, Repr

/-- Server behaviour for the append calls targeting one candidate mailbox:
a1/a2/a3 are the three-tier append attempts (flags+timestamp, timestamp only,
minimal), createOut is the CREATE issued after a non-timeout exception, and
b1/b2/b3 are the three-tier attempts after a successful create. -/
structure MboxEnv where
  a1 : CallOutcome
  a2 : CallOutcome
  a3 : CallOutcome
  createOut : CallOutcome
  b1 : CallOutcome
  b2 : CallOutcome
  b3 : CallOutcome
deriving DecidableEq, Repr

/-- Observable IMAP events of the mirror step: connection attempts, append
attempts (recording whether flags and an internaldate timestamp were passed),
mailbox creation, and the 2-second backoff sleep between retry cycles. -/
inductive ImapEv
  | connect (ok : Bool)
  | append (mbox : String) (withFlags : Bool) (withTimestamp : Bool)
  | create (mbox : String)
  | sleepBackoff
deriving DecidableEq, Repr

/-- Result of processing one candidate mailbox: append succeeded, failed and
the loop continues with the next candidate, or a timeout was detected and the
loop over candidates stops for this connection. -/
inductive MboxResult
  | success
  | failed
  | stop
deriving DecidableEq, Repr

/-- The three-tier append ladder run after a successful CREATE
(lines 315-332): flags+timestamp, then timestamp only, then minimal.
An exception inside is caught by the create handler: timeout stops the
candidate loop, any other exception moves to the next candidate. -/
def ladderAfterCreate (e : MboxEnv) (mbox : String) (pre : List ImapEv) :
    MboxResult × List ImapEv :=
  match e.b1 with
  | .ok => (.success, pre ++ [.append mbox true true])
  | .raiseTimeout => (.stop, pre ++ [.append mbox true true])
  | .raiseOther => (.failed, pre ++ [.append mbox true true])
  | .no =>
    match e.b2 with
    | .ok => (.success, pre ++ [.append mbox true true, .append mbox false true])
    | .raiseTimeout => (.stop, pre ++ [.append mbox true true, .append mbox false true])
    | .raiseOther => (.failed, pre ++ [.append mbox true true, .append mbox false true])
    | .no =>
      match e.b3 with
      | .ok => (.success,
          pre ++ [.append mbox true true, .append mbox false true, .append mbox false false])
      | .raiseTimeout => (.stop,
          pre ++ [.append mbox true true, .append mbox false true, .append mbox false false])
      | .raiseOther => (.failed,
          pre ++ [.append mbox true true, .append mbox false true, .append mbox false false])
      | .no => (.failed,
          pre ++ [.append mbox true true, .append mbox false true, .append mbox false false])

/-- The exception handler of the candidate loop (lines 304-339): on a
non-timeout exception, CREATE the mailbox and, if the create status is OK,
run the three-tier ladder again; a timeout anywhere stops the loop. -/
def createPhase (e : MboxEnv) (mbox : String) (pre : List ImapEv) :
    MboxResult × List ImapEv :=
  let log := pre ++ [.create mbox]
  match e.createOut with
  | .ok => ladderAfterCreate e mbox log
  | .no => (.failed, log)
  | .raiseTimeout => (.stop, log)
  | .raiseOther => (.failed, log)

/-- Embeds one iteration of the candidate-mailbox loop (lines 281-339):
append with flags and timestamp first; on a non-OK status retry without
flags, then without flags and timestamp; on an exception, break on timeout,
otherwise create the mailbox and retry the same ladder. -/
def tryMailbox (e : MboxEnv) (mbox : String) : MboxResult × List ImapEv :=
  match e.a1 with
  | .ok => (.success, [.append mbox true true])
  | .raiseTimeout => (.stop, [.append mbox true true])
  | .raiseOther => createPhase e mbox [.append mbox true true]
  | .no =>
    match e.a2 with
    | .ok => (.success, [.append mbox true true, .append mbox false true])
    | .raiseTimeout => (.stop, [.append mbox true true, .append mbox false true])
    | .raiseOther => createPhase e mbox [.append mbox true true, .append mbox false true]
    | .no =>
      match e.a3 with
      | .ok => (.success,
          [.append mbox true true, .append mbox false true, .append mbox false false])
      | .no => (.failed,
          [.append mbox true true, .append mbox false true, .append mbox false false])
      | .raiseTimeout => (.stop,
          [.append mbox true true, .append mbox false true, .append mbox false false])
      | .raiseOther => createPhase e mbox
          [.append mbox true true, .append mbox false true, .append mbox false false]

/-- The loop over candidate Sent mailboxes: stop at the first success, or
when a timeout was detected; otherwise continue with the next candidate. -/
def mailboxLoop (env : String → MboxEnv) : List String → Bool × List ImapEv
  | [] => (false, [])
  | m :: rest =>
    match tryMailbox (env m) m with
    | (.success, log) => (true, log)
    | (.stop, log) => (false, log)
    | (.failed, log) =>
      let r := mailboxLoop env rest
      (r.1, log ++ r.2)

/-- Server behaviour for one connection cycle of the mirror step:
whether _make_imap succeeds, the Sent folder the RFC 6154 / XLIST / LIST
discovery found (discovery failures are caught in the source and yield
None), and the append behaviour per candidate mailbox. -/
structure CycleEnv where
  connectOk : Bool
  discovered : Option String
  perMailbox : String → MboxEnv

/-- The static candidate list for the Sent folder (lines 200-208). -/
def baseSentMailboxes : List String :=
  ["Sent", "Sent Items", "Sent Mail", "[Gmail]/Sent Mail", "[Gmail]/Sent",
   "INBOX.Sent", "INBOX/Sent"]

/-- Candidate order after discovery (lines 276-279): the discovered folder is
tried first, followed by the static candidates without duplication. -/
def prioritizedMailboxes (discovered : Option String) : List String :=
  match discovered with
  | none => baseSentMailboxes
  | some f => f :: baseSentMailboxes.filter (fun m => m ≠ f)

/-- One connection cycle (one iteration of the retry loop, lines 189-355):
a failed _make_imap raises (caught by the retry handler); otherwise the
candidate-mailbox loop runs.  Discovery is only performed on the first
attempt (the source guards it with attempt == 0).  Returns
(raised, appendSuccess, event log). -/
def runCycle (c : CycleEnv) (isFirst : Bool) : Bool × Bool × List ImapEv :=
  if c.connectOk then
    let mboxes := if isFirst then prioritizedMailboxes c.discovered else baseSentMailboxes
    let r := mailboxLoop c.perMailbox mboxes
    (false, r.1, ImapEv.connect true :: r.2)
  else
    (true, false, [ImapEv.connect false])

/-- The full mirror step with max_retries = 2 (lines 187-358): run cycle 0;
on success stop; otherwise run cycle 1, preceded by the 2-second backoff
sleep exactly when cycle 0 raised (the sleep sits in the exception handler
and fires only for attempt < max_retries - 1). -/
def appendPipeline (c0 c1 : CycleEnv) : Bool × List ImapEv :=
  let r0 := runCycle c0 true
  if r0.2.1 then (true, r0.2.2)
  else
    let between := if r0.1 then [ImapEv.sleepBackoff] else []
    let r1 := runCycle c1 false
    (r1.2.1, r0.2.2 ++ between ++ r1.2.2)

/-- Errors a send can abort with: the SMTP step raised. -/
inductive SendError
  | smtpFailed
deriving DecidableEq, Repr

/-- Environment of one send operation: whether the SMTP transmission
(_make_smtp plus send_message) succeeds, and the server behaviour of the two
possible IMAP mirror cycles. -/
structure SendEnv where
  smtpOk : Bool
  cycle0 : CycleEnv
  cycle1 : CycleEnv

/-- Result of a send: the returned record or the error, the store after the
operation, whether the IMAP mirror succeeded, and the IMAP event log. -/
structure SendResult where
  outcome : Except SendError EmailRecord
  store : Store
  appendSuccess : Bool
  imapLog : List ImapEv

/-- The durable Sent record that step 3 of send_email persists
(lines 364-374). -/
def mkSentRecord (newId : Nat) (user : UserT) (subject body : Option String)
    (toAddrs cc bcc : List String) : EmailRecord :=
  { id := newId
    userId := user.id
    folder := "Sent"
    subject := subject
    body := body
    fromAddress := user.email
    toAddresses := serializeAddresses toAddrs
    ccAddresses := serializeAddresses cc
    bccAddresses := serializeAddresses bcc
    isRead := true }

/-- The draft soft-delete of step 4 (lines 382-387): if a truthy draft_id was
supplied, look the row up by primary key and move it to Trash only when it
exists and belongs to the caller. -/
def draftToTrash (emails1 : List EmailRecord) (user : UserT) (draftId : Option Nat) :
    List EmailRecord :=
  match draftId with
  | none => emails1
  | some d =>
    if d == 0 then emails1
    else
      match emails1.find? (fun e => e.id == d) with
      | none => emails1
      | some draft =>
        if draft.userId == user.id then
          replaceFirstById emails1 d { draft with folder := "Trash" }
        else emails1

/-- Embeds send_email (lines 129-388).  If the SMTP step raises, the whole
operation aborts before any IMAP or store activity.  Otherwise the mirror
pipeline runs (its outcome does not gate anything), the Sent record and one
attachment row per supplied attachment are persisted, and the draft named by
a truthy draft_id is soft-deleted when it belongs to the caller.  The
returned record is the row with the new primary key after all mutations
(the ORM returns the live object). -/
def send_email (env : SendEnv) (st : Store) (user : UserT)
    (subject body : Option String) (toAddrs cc bcc : List String)
    (attachments : List (String × Option String × Bytes))
    (draftId : Option Nat) : SendResult :=
  if env.smtpOk then
    let ap := appendPipeline env.cycle0 env.cycle1
    let newId := st.nextId
    let sentRec := mkSentRecord newId user subject body toAddrs cc bcc
    let newAtts := attachments.map (fun a => AttachmentRecord.mk newId a.1 a.2.1 a.2.2)
    let emails2 := draftToTrash (st.emails ++ [sentRec]) user draftId
    let st2 : Store := { nextId := st.nextId + 1, emails := emails2, atts := st.atts ++ newAtts }
    let returnedRec :=
      match emails2.find? (fun e => e.id == newId) with
      | some r => r
      | none => sentRec
    { outcome := Except.ok returnedRec, store := st2,
      appendSuccess := ap.1, imapLog := ap.2 }
  else
    { outcome := Except.error SendError.smtpFailed, store := st,
      appendSuccess := false, imapLog := [] }

/-! ### Mailbox reader / pager (list_mailbox, lines 760-899)

Search returns the raw identifier tokens of the server (byte strings).  The
source sorts them with all_uids.sort(key=lambda x: int(x), reverse=True) —
a stable descending sort on the integer value, falling back to reversing the
server order when int() raises on some token — slices the page, and fetches
header fields and flags per identifier; a fetch or processing failure skips
that identifier.  Header decoding itself (BytesParser plus the textual
fallback parser) is summarized by the HeaderInfo the environment attaches to
an identifier: None means the fetch failed or raised, Some h means a summary
with the decoded fields h was produced. -/

/-- Integer parse of an identifier token, as int() succeeds on the digit
strings IMAP SEARCH returns: all-digit and nonempty, otherwise failure. -/
def digitVal (c : Char) : Option Nat :=
  if 48 ≤ c.toNat ∧ c.toNat ≤ 57 then some (c.toNat - 48) else none

/-- Left-to-right accumulation of decimal digits; none on a non-digit or on
an empty token. -/
def parseDigits : List Char → Option Nat → Option Nat
  | [], acc => acc
  | c :: cs, acc =>
    match digitVal c, acc with
    | some d, some n => parseDigits cs (some (n * 10 + d))
    | some d, none => parseDigits cs (some d)
    | none, _ => none

/-- Integer value of one identifier token (int(x) of the sort key). -/
def uidSortKey (uid : String) : Option Nat := parseDigits uid.toList none

/-- The descending comparison the sort uses: later key at most earlier key. -/
def uidDescLe (a b : String) : Bool :=
  decide ((uidSortKey b).getD 0 ≤ (uidSortKey a).getD 0)

/-- Embeds the sort step (lines 808-813): stable descending sort by integer
value; if any token fails to parse (int raises), fall back to reversing the
server-returned order.  List.mergeSort is stable, like Python list.sort. -/
def sortUids (toks : List String) : List String :=
  if toks.all (fun t => (uidSortKey t).isSome)
  then toks.mergeSort uidDescLe
  else toks.reverse

/-- Embeds the page slice (lines 815-818): start = (page-1)*size, end =
start+size. -/
def pageSlice (sorted : List String) (page size : Nat) : List String :=
  (sorted.drop ((page - 1) * size)).take size

/-- Decoded header summary of one fetched message, as the per-identifier loop
produces it (subject, from, to, and the Seen flag). -/
structure HeaderInfo where
  subject : Option String
  fromAddress : Option String
  toAddresses : List String
  isRead : Bool
deriving DecidableEq, Repr

/-- One row of a paginated listing (the MessageSummary / EmailItem dict built
at lines 871-878). -/
structure EmailItem where
  id : Nat
  folder : String
  subject : Option String
  fromAddress : Option String
  toAddresses : List String
  isRead : Bool
deriving DecidableEq, Repr

/-- The payload list_mailbox returns: {"total": ..., "items": [...]}. -/
structure Payload where
  total : Nat
  items : List EmailItem
deriving DecidableEq, Repr

/-- Outcome of _make_imap (lines 69-87): success, or a raised ValueError that
either reports IMAP authentication failed (imaplib.IMAP4.error from login) or
IMAP connection failed (any other exception). -/
inductive ConnectOutcome
  | ok
  | authFail
  | connFail
deriving DecidableEq, Repr

/-- Environment of one folder listing: connection outcome, whether the
read-only SELECT succeeds (a non-OK status and a raised exception take the
same early-return branch), the identifier tokens SEARCH ALL produces (none
covers a non-OK status, empty data and a raised exception), and the header
summary each per-identifier fetch yields (none covers a failed fetch and a
raised exception: that identifier is skipped). -/
structure ListEnv where
  connect : ConnectOutcome
  selectOk : Bool
  search : Option (List String)
  fetch : String → Option HeaderInfo

/-- Errors a listing can raise: the two ValueError kinds of _make_imap. -/
inductive ListError
  | authFailed
  | connFailed
deriving DecidableEq, Repr

/-- Identifier of one item (lines 866-869): int(uid), falling back to
int.from_bytes(uid, "big") — big-endian value of the token bytes — when the
token is not numeric. -/
def itemId (uid : String) : Nat :=
  match uidSortKey uid with
  | some n => n
  | none => uid.toList.foldl (fun acc c => acc * 256 + c.toNat) 0

/-- The listing row built for one successfully fetched identifier. -/
def mkItem (folder : String) (uid : String) (h : HeaderInfo) : EmailItem :=
  { id := itemId uid
    folder := folder
    subject := h.subject
    fromAddress := h.fromAddress
    toAddresses := h.toAddresses
    isRead := h.isRead }

/-- Embeds list_mailbox (lines 760-899): connection failures raise; a failed
select or a failed/empty search returns {total 0, items []}; otherwise the
sorted identifiers are sliced to the page and each identifier is fetched,
skipping identifiers whose fetch fails. -/
def list_mailbox (env : ListEnv) (folder : String) (page size : Nat) :
    Except ListError Payload :=
  match env.connect with
  | ConnectOutcome.authFail => Except.error ListError.authFailed
  | ConnectOutcome.connFail => Except.error ListError.connFailed
  | ConnectOutcome.ok =>
    if env.selectOk then
      match env.search with
      | none => Except.ok { total := 0, items := [] }
      | some allUids =>
        if allUids.isEmpty then Except.ok { total := 0, items := [] }
        else
          let total := allUids.length
          let sorted := sortUids allUids
          let pageUids := pageSlice sorted page size
          let items := pageUids.filterMap (fun uid => (env.fetch uid).map (mkItem folder uid))
          Except.ok { total := total, items := items }
    else Except.ok { total := 0, items := [] }

/-! ### Listing routes (src/app/api/routes/emails.py)

Each route converts a ValueError whose message contains "IMAP authentication
failed" into the distinct 400 reconnect response.  Inbox, Trash, Archive and
Spam convert every other exception into a generic 500 fetch failure; Sent and
Drafts instead fall through to the durable store, and also use the store when
the live listing reports a total of 0.  The database query of the fallback
branch is represented by the payload it produces. -/

/-- Caller-visible outcome of one listing route: a page served from the live
server, a page served from the durable store, the distinct reconnect error
(HTTP 400), or the generic fetch failure (HTTP 500). -/
inductive HttpResult
  | okImap (p : Payload)
  | okDb (p : Payload)
  | authError
  | genericError
deriving DecidableEq, Repr

/-- Embeds get_inbox (lines 127-138). -/
def get_inbox (env : ListEnv) (page size : Nat) : HttpResult :=
  match list_mailbox env "INBOX" page size with
  | Except.ok p => HttpResult.okImap p
  | Except.error ListError.authFailed => HttpResult.authError
  | Except.error ListError.connFailed => HttpResult.genericError

/-- Embeds get_trash (lines 214-225). -/
def get_trash (env : ListEnv) (page size : Nat) : HttpResult :=
  match list_mailbox env "Trash" page size with
  | Except.ok p => HttpResult.okImap p
  | Except.error ListError.authFailed => HttpResult.authError
  | Except.error ListError.connFailed => HttpResult.genericError

/-- Embeds get_archive (lines 228-239). -/
def get_archive (env : ListEnv) (page size : Nat) : HttpResult :=
  match list_mailbox env "Archive" page size with
  | Except.ok p => HttpResult.okImap p
  | Except.error ListError.authFailed => HttpResult.authError
  | Except.error ListError.connFailed => HttpResult.genericError

/-- Embeds get_spam (lines 242-253). -/
def get_spam (env : ListEnv) (page size : Nat) : HttpResult :=
  match list_mailbox env "Spam" page size with
  | Except.ok p => HttpResult.okImap p
  | Except.error ListError.authFailed => HttpResult.authError
  | Except.error ListError.connFailed => HttpResult.genericError

/-- Embeds get_sent (lines 141-164) on its default source="imap" path: IMAP
first; a page with positive total is served; authentication failures raise
the distinct reconnect error; any other failure, and a total of 0, fall
through to the durable-store query, whose result is dbPayload. -/
def get_sent (env : ListEnv) (dbPayload : Payload) (page size : Nat) : HttpResult :=
  match list_mailbox env "Sent" page size with
  | Except.ok p => if 0 < p.total then HttpResult.okImap p else HttpResult.okDb dbPayload
  | Except.error ListError.authFailed => HttpResult.authError
  | Except.error ListError.connFailed => HttpResult.okDb dbPayload

/-- Embeds get_drafts (lines 167-211), identical in structure to get_sent. -/
def get_drafts (env : ListEnv) (dbPayload : Payload) (page size : Nat) : HttpResult :=
  match list_mailbox env "Drafts" page size with
  | Except.ok p => if 0 < p.total then HttpResult.okImap p else HttpResult.okDb dbPayload
  | Except.error ListError.authFailed => HttpResult.authError
  | Except.error ListError.connFailed => HttpResult.okDb dbPayload

/-! ### Change detector, poll strategy (poll_for_new_emails, lines 392-541)

After select and the refresh sequence (NOOP, CHECK, close-and-reselect —
each wrapped in try/except so it cannot alter the results modelled here),
the source searches ALL, then UNSEEN, then RECENT, and fetches header
summaries for the first 5 of the RECENT identifiers.  Every protocol call
outside an inner try/except that raises is caught by the outermost handler,
which turns the whole poll into a success=False result. -/

/-- Outcome of one SEARCH: a raised exception (aborting the poll), a non-OK
status or empty data (treated as no identifiers), or identifier tokens. -/
inductive SearchRes
  | raised
  | notOk
  | found (toks : List String)
deriving Repr

/-- Identifier tokens a search outcome contributes (empty unless found). -/
def SearchRes.uids : SearchRes → List String
  | SearchRes.found toks => toks
  | _ => []

/-- Environment of one poll: connection, select, the three searches, and the
header summary each fetch yields (none means that identifier is skipped). -/
structure PollEnv where
  connect : ConnectOutcome
  selectOk : Bool
  searchAll : SearchRes
  searchUnseen : SearchRes
  searchRecent : SearchRes
  fetch : String → Option HeaderInfo

/-- One entry of the new_emails list (lines 483-489): uid, decoded subject
and sender, and the Seen flag (the Date header is not modelled). -/
structure PollEmail where
  uid : String
  subject : Option String
  fromAddress : Option String
  isRead : Bool
deriving DecidableEq, Repr

/-- The success=True payload of a poll (lines 495-505). -/
structure PollOk where
  totalEmails : Nat
  unseenCount : Nat
  recentCount : Nat
  unseenUids : List String
  recentUids : List String
  fetchedUids : List String
  newEmails : List PollEmail
deriving DecidableEq, Repr

/-- Result of a poll: the success payload, or the success=False dictionary
(produced for connection failures, a failed select, and any uncaught
exception — including authentication failures, which the poll route returns
inside the dictionary rather than re-raising). -/
inductive PollResult
  | ok (r : PollOk)
  | err
deriving Repr

/-- Embeds poll_for_new_emails (lines 392-541).  The searches are issued in
the order ALL, UNSEEN, RECENT; a raised search aborts the poll; header
summaries are fetched for recent_uids[:5] only, and a fetch or parse failure
skips that identifier. -/
def poll_for_new_emails (env : PollEnv) : PollResult :=
  match env.connect with
  | ConnectOutcome.authFail => PollResult.err
  | ConnectOutcome.connFail => PollResult.err
  | ConnectOutcome.ok =>
    if env.selectOk then
      match env.searchAll, env.searchUnseen, env.searchRecent with
      | SearchRes.raised, _, _ => PollResult.err
      | _, SearchRes.raised, _ => PollResult.err
      | _, _, SearchRes.raised => PollResult.err
      | sa, su, sr =>
        let allUids := sa.uids
        let unseenUids := su.uids
        let recentUids := sr.uids
        let fetched := recentUids.take 5
        let newEmails := fetched.filterMap (fun uid =>
          (env.fetch uid).map (fun h => PollEmail.mk uid h.subject h.fromAddress h.isRead))
        PollResult.ok
          { totalEmails := allUids.length
            unseenCount := unseenUids.length
            recentCount := recentUids.length
            unseenUids := unseenUids
            recentUids := recentUids
            fetchedUids := fetched
            newEmails := newEmails }
    else PollResult.err

/-! ### Concrete fixtures used by the witnesses -/

/-- Mailbox behaviour where every append is rejected with a non-OK status. -/
def quietMbox : MboxEnv :=
  ⟨CallOutcome.no, CallOutcome.no, CallOutcome.no, CallOutcome.no,
   CallOutcome.no, CallOutcome.no, CallOutcome.no⟩

/-- Cycle whose connection succeeds, discovery finds nothing, and every
append is rejected: the mirror step fails on every candidate and retry. -/
def quietCycle : CycleEnv := ⟨true, none, fun _ => quietMbox⟩

/-- Record owned by user 2 with primary key 1, the foreign record of the
ownership witnesses. -/
def otherRec : EmailRecord :=
  ⟨1, 2, "Sent", none, none, "b@x.com", "[]", "[]", "[]", true⟩

/-- Store holding only otherRec, with next primary key 3. -/
def fixtureStore : Store := ⟨3, [otherRec], []⟩

/-- The caller of the ownership witnesses: user 1. -/
def callerUser : UserT := ⟨1, "a@x.com"⟩

/-- Header summary with no decoded fields, enough to build a listing row. -/
def plainHeader : HeaderInfo := ⟨none, none, [], false⟩

/-- Identifier list of the items of one listing result (empty for an
error). -/
def pageIdsOf (res : Except ListError Payload) : List Nat :=
  match res with
  | Except.ok pl => pl.items.map (fun it => it.id)
  | Except.error _ => []

/-- Number of connection attempts recorded in a mirror-step event log. -/
def countConnects (log : List ImapEv) : Nat :=
  log.countP (fun ev => match ev with | ImapEv.connect _ => true | _ => false)

/-! ### Lemmas about the store primitives -/

/-- Appending a fresh-id row makes it the find? result when no earlier row
carries that id. -/
theorem find_append_last (l : List EmailRecord) (r : EmailRecord) (n : Nat)
    (hl : ∀ e ∈ l, e.id ≠ n) (hr : r.id = n) :
    (l ++ [r]).find? (fun e => e.id == n) = some r := by
  induction l with
  | nil =>
    simp [List.find?, hr]
  | cons a t ih =>
    have ha : (a.id == n) = false := by
      simp only [beq_eq_false_iff_ne, ne_eq]
      exact hl a (List.mem_cons_self a t)
    simp only [List.cons_append, List.find?, ha]
    exact ih (fun e he => hl e (List.mem_cons_of_mem a he))

/-- Replacing the row with one primary key does not change lookups of a
different primary key. -/
theorem find_replaceFirst_ne (l : List EmailRecord) (d n : Nat) (e2 : EmailRecord)
    (hdn : d ≠ n) (he2 : e2.id = d) :
    (replaceFirstById l d e2).find? (fun e => e.id == n)
      = l.find? (fun e => e.id == n) := by
  induction l with
  | nil => rfl
  | cons a t ih =>
    by_cases h : (a.id == d) = true
    · have had : a.id = d := by simpa using h
      have h1 : (e2.id == n) = false := by simp [he2, hdn]
      have h2 : (a.id == n) = false := by simp [had, hdn]
      simp only [replaceFirstById, h, if_true, List.find?, h1, h2]
    · simp only [replaceFirstById, h, if_false, List.find?]
      by_cases h2 : (a.id == n) = true
      · simp [h2]
      · simp only [Bool.not_eq_true] at h2
        simp [h2, ih]

/-- Membership survives replaceFirstById for any row other than the one the
lookup finds. -/
theorem mem_replaceFirst_of_ne_found (l : List EmailRecord) (d : Nat)
    (e2 r : EmailRecord) (hr : r ∈ l)
    (hfind : ∀ x, l.find? (fun e => e.id == d) = some x → r ≠ x) :
    r ∈ replaceFirstById l d e2 := by
  induction l with
  | nil => cases hr
  | cons a t ih =>
    by_cases h : (a.id == d) = true
    · simp only [replaceFirstById, h, if_true]
      have hfa : (a :: t).find? (fun e => e.id == d) = some a := by
        simp [List.find?, h]
      have hra : r ≠ a := hfind a hfa
      rcases List.mem_cons.mp hr with h1 | h1
      · exact absurd h1 hra
      · exact List.mem_cons_of_mem _ h1
    · simp only [replaceFirstById, h, if_false]
      rcases List.mem_cons.mp hr with h1 | h1
      · exact h1 ▸ List.mem_cons_self _ _
      · refine List.mem_cons_of_mem _ (ih h1 (fun x hx => hfind x ?_))
        simpa [List.find?, h] using hx

/-- The draft soft-delete never disturbs lookups of a different primary
key. -/
theorem find_draftToTrash_ne (l : List EmailRecord) (user : UserT)
    (draftId : Option Nat) (n : Nat) (hdn : draftId ≠ some n) :
    (draftToTrash l user draftId).find? (fun e => e.id == n)
      = l.find? (fun e => e.id == n) := by
  match draftId with
  | none => rfl
  | some d =>
    have hdn2 : d ≠ n := fun h => hdn (by rw [h])
    by_cases h0 : (d == 0) = true
    · simp [draftToTrash, h0]
    · rcases hf : l.find? (fun e => e.id == d) with _ | draft
      · simp [draftToTrash, h0, hf]
      · have hid : draft.id = d := by simpa using List.find?_some hf
        by_cases hu : (draft.userId == user.id) = true
        · simp only [draftToTrash, h0, Bool.false_eq_true, if_false, hf, hu, if_true]
          exact find_replaceFirst_ne _ _ _ _ hdn2 hid
        · simp [draftToTrash, h0, hf, hu]

/-- The draft soft-delete never removes a row owned by another user. -/
theorem mem_draftToTrash (l : List EmailRecord) (user : UserT)
    (draftId : Option Nat) (r : EmailRecord) (hr : r ∈ l)
    (hru : r.userId ≠ user.id) :
    r ∈ draftToTrash l user draftId := by
  match draftId with
  | none => exact hr
  | some d =>
    by_cases h0 : (d == 0) = true
    · simpa [draftToTrash, h0] using hr
    · rcases hf : l.find? (fun e => e.id == d) with _ | draft
      · simpa [draftToTrash, h0, hf] using hr
      · by_cases hu : (draft.userId == user.id) = true
        · have hud : draft.userId = user.id := by simpa using hu
          simp only [draftToTrash, h0, Bool.false_eq_true, if_false, hf, hu, if_true]
          refine mem_replaceFirst_of_ne_found _ _ _ _ hr (fun x hx => ?_)
          have hdx : draft = x := Option.some.inj (hf.symm.trans hx)
          intro hrx
          exact hru (by rw [hrx, ← hdx, hud])
        · simpa [draftToTrash, h0, hf, hu] using hr

/-! ### Claims C1, C2, C10 -/

/-- C1 (send atomicity): when the SMTP transmission step fails, send_email
aborts with the send error, the durable store is exactly the input store (no
DurableMessageRecord is created), and the IMAP event log is empty (no append
is attempted). -/
theorem send_atomicity (c0 c1 : CycleEnv) (st : Store) (user : UserT)
    (subject body : Option String) (toAddrs cc bcc : List String)
    (attachments : List (String × Option String × Bytes)) (draftId : Option Nat) :
    send_email ⟨false, c0, c1⟩ st user subject body toAddrs cc bcc attachments draftId
      = { outcome := Except.error SendError.smtpFailed, store := st,
          appendSuccess := false, imapLog := [] } := rfl

/-- C2 (send durability): when SMTP transmission succeeds — whatever the two
IMAP mirror cycles do, including failing every append attempt — send_email
returns the Sent record built from the message content, that record is
persisted in the store, its folder is "Sent", and exactly one attachment row
per supplied attachment is appended to the attachments table. -/
theorem send_durability (c0 c1 : CycleEnv) (st : Store) (user : UserT)
    (subject body : Option String) (toAddrs cc bcc : List String)
    (attachments : List (String × Option String × Bytes)) (draftId : Option Nat)
    (wf : ∀ r ∈ st.emails, r.id < st.nextId)
    (hd : draftId ≠ some st.nextId) :
    (send_email ⟨true, c0, c1⟩ st user subject body toAddrs cc bcc attachments
        draftId).outcome
      = Except.ok (mkSentRecord st.nextId user subject body toAddrs cc bcc) ∧
    mkSentRecord st.nextId user subject body toAddrs cc bcc ∈
      (send_email ⟨true, c0, c1⟩ st user subject body toAddrs cc bcc attachments
        draftId).store.emails ∧
    (send_email ⟨true, c0, c1⟩ st user subject body toAddrs cc bcc attachments
        draftId).store.atts
      = st.atts ++ attachments.map (fun a => AttachmentRecord.mk st.nextId a.1 a.2.1 a.2.2) ∧
    (mkSentRecord st.nextId user subject body toAddrs cc bcc).folder = "Sent" := by
  have hl : ∀ e ∈ st.emails, e.id ≠ st.nextId := fun e he => Nat.ne_of_lt (wf e he)
  have h1 : (st.emails ++ [mkSentRecord st.nextId user subject body toAddrs cc bcc]).find?
      (fun e => e.id == st.nextId)
      = some (mkSentRecord st.nextId user subject body toAddrs cc bcc) :=
    find_append_last _ _ _ hl rfl
  have h2 : (draftToTrash (st.emails ++ [mkSentRecord st.nextId user subject body toAddrs cc bcc])
      user draftId).find? (fun e => e.id == st.nextId)
      = some (mkSentRecord st.nextId user subject body toAddrs cc bcc) := by
    rw [find_draftToTrash_ne _ _ _ _ hd]; exact h1
  refine ⟨?_, ?_, ?_, rfl⟩
  · simp only [send_email, if_true]
    rw [h2]
  · simp only [send_email, if_true]
    exact List.mem_of_find?_eq_some h2
  · simp only [send_email, if_true]

/-- C2 witness: a concrete send (Scenario B shape) against an environment
where every IMAP append is rejected still returns and persists the Sent
record with its attachment row. -/
theorem send_durability_witness :
    (send_email ⟨true, quietCycle, quietCycle⟩ ⟨0, [], []⟩ ⟨1, "a@x.com"⟩ (some "hi")
        (some "body") ["r@x.com"] [] []
        [("r.pdf", some "application/pdf", [37, 80, 68, 70])] none).outcome
      = Except.ok (mkSentRecord 0 ⟨1, "a@x.com"⟩ (some "hi") (some "body") ["r@x.com"] [] []) ∧
    (send_email ⟨true, quietCycle, quietCycle⟩ ⟨0, [], []⟩ ⟨1, "a@x.com"⟩ (some "hi")
        (some "body") ["r@x.com"] [] []
        [("r.pdf", some "application/pdf", [37, 80, 68, 70])] none).store.atts
      = [AttachmentRecord.mk 0 "r.pdf" (some "application/pdf") [37, 80, 68, 70]] := by
  have h := send_durability quietCycle quietCycle ⟨0, [], []⟩ ⟨1, "a@x.com"⟩ (some "hi")
    (some "body") ["r@x.com"] [] [] [("r.pdf", some "application/pdf", [37, 80, 68, 70])] none
    (by simp) (by simp)
  exact ⟨h.1, by simpa using h.2.2.1⟩

/-- C10 (ownership invariant): move_email_db and set_read_flag_db return None
and leave the store unchanged unless the row exists and belongs to the
caller; rows owned by other users survive both operations and survive
send_email (including its draft-to-Trash step), so no operation mutates
another user's DurableMessageRecord. -/
theorem ownership_invariant (st : Store) (user : UserT) (emailId : Nat)
    (target : String) (flag : Bool) (env : SendEnv) (subject body : Option String)
    (toAddrs cc bcc : List String) (atts : List (String × Option String × Bytes))
    (draftId : Option Nat) :
    ((∀ e, findEmail st emailId = some e → e.userId ≠ user.id →
        move_email_db st user emailId target = (none, st)) ∧
     (findEmail st emailId = none → move_email_db st user emailId target = (none, st)) ∧
     (∀ r ∈ st.emails, r.userId ≠ user.id →
        r ∈ (move_email_db st user emailId target).2.emails)) ∧
    ((∀ e, findEmail st emailId = some e → e.userId ≠ user.id →
        set_read_flag_db st user emailId flag = (none, st)) ∧
     (findEmail st emailId = none → set_read_flag_db st user emailId flag = (none, st)) ∧
     (∀ r ∈ st.emails, r.userId ≠ user.id →
        r ∈ (set_read_flag_db st user emailId flag).2.emails)) ∧
    (∀ r ∈ st.emails, r.userId ≠ user.id →
        r ∈ (send_email env st user subject body toAddrs cc bcc atts draftId).store.emails) := by
  refine ⟨⟨?_, ?_, ?_⟩, ⟨?_, ?_, ?_⟩, ?_⟩
  · intro e hfe hne
    have hb : (e.userId == user.id) = false := by simp [hne]
    simp [move_email_db, hfe, hb]
  · intro hfe
    simp [move_email_db, hfe]
  · intro r hr hru
    rcases hfe : findEmail st emailId with _ | e
    · simp only [move_email_db, hfe]
      exact hr
    · by_cases hu : (e.userId == user.id) = true
      · have hud : e.userId = user.id := by simpa using hu
        simp only [move_email_db, hfe, hu, if_true]
        refine mem_replaceFirst_of_ne_found _ _ _ _ hr (fun x hx => ?_)
        have hex : e = x := Option.some.inj ((hfe.symm).trans hx)
        intro hrx
        exact hru (by rw [hrx, ← hex, hud])
      · simp only [move_email_db, hfe, hu, Bool.false_eq_true, if_false]
        exact hr
  · intro e hfe hne
    have hb : (e.userId == user.id) = false := by simp [hne]
    simp [set_read_flag_db, hfe, hb]
  · intro hfe
    simp [set_read_flag_db, hfe]
  · intro r hr hru
    rcases hfe : findEmail st emailId with _ | e
    · simp only [set_read_flag_db, hfe]
      exact hr
    · by_cases hu : (e.userId == user.id) = true
      · have hud : e.userId = user.id := by simpa using hu
        simp only [set_read_flag_db, hfe, hu, if_true]
        refine mem_replaceFirst_of_ne_found _ _ _ _ hr (fun x hx => ?_)
        have hex : e = x := Option.some.inj ((hfe.symm).trans hx)
        intro hrx
        exact hru (by rw [hrx, ← hex, hud])
      · simp only [set_read_flag_db, hfe, hu, Bool.false_eq_true, if_false]
        exact hr
  · intro r hr hru
    rcases env with ⟨smtpOk, c0, c1⟩
    cases smtpOk
    · simpa [send_email] using hr
    · simp only [send_email, if_true]
      exact mem_draftToTrash _ _ _ _ (List.mem_append_left _ hr) hru

/-- C10 witness: against the concrete store whose only record belongs to
user 2, caller 1 cannot move it (None, store unchanged) and the record
survives a read-flag attempt by caller 1. -/
theorem ownership_invariant_witness :
    move_email_db fixtureStore callerUser 1 "Trash" = (none, fixtureStore) ∧
    otherRec ∈ (set_read_flag_db fixtureStore callerUser 1 true).2.emails := by
  have h := ownership_invariant fixtureStore callerUser 1 "Trash" true
    ⟨false, quietCycle, quietCycle⟩ none none [] [] [] [] none
  refine ⟨h.1.1 otherRec rfl (by decide), h.2.1.2.2 otherRec ?_ (by decide)⟩
  show otherRec ∈ [otherRec]
  exact List.mem_singleton.mpr rfl

/-! ### Lemmas about the sort and the page slices -/

/-- The descending uid comparison is transitive. -/
theorem uidDescLe_trans : ∀ a b c, uidDescLe a b = true → uidDescLe b c = true →
    uidDescLe a c = true := by
  intro a b c hab hbc
  simp only [uidDescLe, decide_eq_true_eq] at *
  omega

/-- The descending uid comparison is total. -/
theorem uidDescLe_total : ∀ a b, (uidDescLe a b || uidDescLe b a) = true := by
  intro a b
  simp only [uidDescLe]
  rcases Nat.le_total ((uidSortKey b).getD 0) ((uidSortKey a).getD 0) with h | h <;> simp [h]

/-- Both branches of the sort step are permutations of the search result. -/
theorem sortUids_perm (toks : List String) : (sortUids toks).Perm toks := by
  unfold sortUids
  by_cases h : toks.all (fun t => (uidSortKey t).isSome) = true
  · rw [if_pos h]
    exact List.mergeSort_perm toks uidDescLe
  · rw [if_neg h]
    exact List.reverse_perm toks

/-- When every token parses, the sort step yields a list that is descending
in the numeric identifier value. -/
theorem sortUids_sorted (toks : List String)
    (h : toks.all (fun t => (uidSortKey t).isSome) = true) :
    (sortUids toks).Pairwise (fun a b => uidDescLe a b = true) := by
  unfold sortUids
  rw [if_pos h]
  apply List.sorted_mergeSort
  · exact uidDescLe_trans
  · exact uidDescLe_total

/-- Arithmetic of the page count: N identifiers fit in ceil(N/size) pages. -/
theorem le_ceil_mul (N size : Nat) (hs : 0 < size) :
    N ≤ ((N + size - 1) / size) * size := by
  have h1 := Nat.div_add_mod (N + size - 1) size
  have h2 : (N + size - 1) % size < size := Nat.mod_lt _ hs
  have h3 : size * ((N + size - 1) / size) = ((N + size - 1) / size) * size :=
    Nat.mul_comm _ _
  omega

/-- Concatenating the consecutive size-slices of a list rebuilds the list. -/
theorem flatten_chunks {α : Type} (size : Nat) :
    ∀ (n : Nat) (l : List α), l.length ≤ n * size →
      ((List.range n).map (fun i => (l.drop (i * size)).take size)).flatten = l := by
  intro n
  induction n with
  | zero =>
    intro l hl
    simp only [Nat.zero_mul, Nat.le_zero] at hl
    rw [List.length_eq_zero] at hl
    simp [hl]
  | succ n ih =>
    intro l hl
    rw [List.range_succ_eq_map]
    simp only [List.map_cons, List.map_map, List.flatten_cons, Nat.zero_mul,
      List.drop_zero, Function.comp_def]
    have hfun : (List.range n).map (fun i => (l.drop (Nat.succ i * size)).take size)
        = (List.range n).map (fun i => ((l.drop size).drop (i * size)).take size) := by
      apply List.map_congr_left
      intro i _
      rw [List.drop_drop]
      have hmul : size + i * size = Nat.succ i * size := by
        rw [Nat.succ_mul, Nat.add_comm]
      rw [hmul]
    rw [hfun, ih (l.drop size) (by
      simp only [List.length_drop]
      have h1 : Nat.succ n * size = n * size + size := Nat.succ_mul n size
      have h2 : (n + 1) * size = Nat.succ n * size := rfl
      omega)]
    exact List.take_append_drop size l

/-- When every fetch succeeds, the identifier column of the produced items is
the identifier list of the page slice. -/
theorem map_id_filterMap_allOk (folder : String) (hf : String → HeaderInfo) :
    ∀ l : List String,
      (l.filterMap (fun uid => (some (hf uid)).map (mkItem folder uid))).map
        (fun it => it.id) = l.map itemId := by
  intro l
  induction l with
  | nil => rfl
  | cons u rest ih =>
    show ((mkItem folder u (hf u)) :: rest.filterMap
        (fun uid => (some (hf uid)).map (mkItem folder uid))).map (fun it => it.id)
      = itemId u :: rest.map itemId
    simp only [List.map_cons]
    rw [ih]
    rfl

/-- The page identifiers a listing against an all-fetches-succeed server
produces are exactly the page slice of the sorted search result. -/
theorem pageIdsOf_list_mailbox (toks : List String) (folder : String)
    (hf : String → HeaderInfo) (p size : Nat) :
    pageIdsOf (list_mailbox ⟨ConnectOutcome.ok, true, some toks, fun u => some (hf u)⟩
        folder p size)
      = (pageSlice (sortUids toks) p size).map itemId := by
  cases toks with
  | nil =>
    have hz : sortUids [] = [] := by
      unfold sortUids
      simp
    rw [hz]
    simp [pageIdsOf, list_mailbox, pageSlice]
  | cons t ts =>
    have hne : (t :: ts).isEmpty = false := rfl
    simp only [list_mailbox, hne, Bool.false_eq_true, if_false, if_true, pageIdsOf]
    exact map_id_filterMap_allOk folder hf _

/-! ### Claims C3, C4, C5 -/

/-- C3 (pagination order and slicing): when every identifier token parses,
the sort step produces a numerically descending permutation of the search
result; when a token fails to parse, the server order is reversed instead
(shown on a concrete input); and Scenario A holds: search result
[5,4,3,2,1] with page 1 and size 2 lists items for 5 then 4 with total 5. -/
theorem pagination_order :
    (∀ toks : List String, toks.all (fun t => (uidSortKey t).isSome) = true →
        (sortUids toks).Pairwise (fun a b => uidDescLe a b = true) ∧
        (sortUids toks).Perm toks) ∧
    sortUids ["10", "x2"] = ["x2", "10"] ∧
    list_mailbox ⟨ConnectOutcome.ok, true, some ["5", "4", "3", "2", "1"],
        fun _ => some plainHeader⟩ "INBOX" 1 2
      = Except.ok (Payload.mk 5
          [mkItem "INBOX" "5" plainHeader, mkItem "INBOX" "4" plainHeader]) ∧
    (mkItem "INBOX" "5" plainHeader).id = 5 ∧
    (mkItem "INBOX" "4" plainHeader).id = 4 := by
  refine ⟨fun toks h => ⟨sortUids_sorted toks h, sortUids_perm toks⟩, by decide, ?_, rfl, rfl⟩
  have hsort : sortUids ["5", "4", "3", "2", "1"] = ["5", "4", "3", "2", "1"] := by
    unfold sortUids
    rw [if_pos (by decide)]
    exact List.mergeSort_of_sorted (by decide)
  have h0 : list_mailbox ⟨ConnectOutcome.ok, true, some ["5", "4", "3", "2", "1"],
      fun _ => some plainHeader⟩ "INBOX" 1 2
      = Except.ok (Payload.mk 5
          ((pageSlice (sortUids ["5", "4", "3", "2", "1"]) 1 2).filterMap
            (fun uid => (some plainHeader).map (mkItem "INBOX" uid)))) := rfl
  rw [h0, hsort]
  rfl

/-- C3 witness: on the parseable tokens [5, 4] the sort step yields a
descending permutation. -/
theorem pagination_order_witness :
    (sortUids ["5", "4"]).Pairwise (fun a b => uidDescLe a b = true) ∧
    (sortUids ["5", "4"]).Perm ["5", "4"] :=
  pagination_order.1 ["5", "4"] (by decide)

/-- C4 (idempotent pagination): against a fixed search result of distinct
identifiers and an all-fetches-succeed server, the concatenation of the item
identifiers of pages 1 .. ceil(N/size) is a permutation of the full
identifier set and contains no duplicate, for any fixed positive size. -/
theorem idempotent_pagination (toks : List String) (size : Nat) (folder : String)
    (hf : String → HeaderInfo) (hs : 0 < size) (hnd : (toks.map itemId).Nodup) :
    (((List.range ((toks.length + size - 1) / size)).map (fun i =>
        pageIdsOf (list_mailbox ⟨ConnectOutcome.ok, true, some toks, fun u => some (hf u)⟩
          folder (i + 1) size))).flatten).Perm (toks.map itemId) ∧
    ((List.range ((toks.length + size - 1) / size)).map (fun i =>
        pageIdsOf (list_mailbox ⟨ConnectOutcome.ok, true, some toks, fun u => some (hf u)⟩
          folder (i + 1) size))).flatten.Nodup := by
  have hn : (sortUids toks).length ≤ ((toks.length + size - 1) / size) * size := by
    rw [(sortUids_perm toks).length_eq]
    exact le_ceil_mul toks.length size hs
  have hmap : (List.range ((toks.length + size - 1) / size)).map (fun i =>
      pageIdsOf (list_mailbox ⟨ConnectOutcome.ok, true, some toks, fun u => some (hf u)⟩
        folder (i + 1) size))
      = (List.range ((toks.length + size - 1) / size)).map (fun i =>
          (((sortUids toks).drop (i * size)).take size).map itemId) :=
    List.map_congr_left (fun i _ => pageIdsOf_list_mailbox toks folder hf (i + 1) size)
  have hflat : ((List.range ((toks.length + size - 1) / size)).map (fun i =>
      (((sortUids toks).drop (i * size)).take size).map itemId)).flatten
      = (sortUids toks).map itemId := by
    rw [show (List.range ((toks.length + size - 1) / size)).map (fun i =>
          (((sortUids toks).drop (i * size)).take size).map itemId)
        = ((List.range ((toks.length + size - 1) / size)).map (fun i =>
            ((sortUids toks).drop (i * size)).take size)).map (List.map itemId) from
      (List.map_map _ _ _).symm]
    rw [← List.map_flatten, flatten_chunks size _ _ hn]
  constructor
  · rw [hmap, hflat]
    exact (sortUids_perm toks).map itemId
  · rw [hmap, hflat]
    exact (List.Perm.nodup_iff ((sortUids_perm toks).map itemId)).mpr hnd

/-- C4 witness: pages of size 2 over the search result [5,4,3,2,1] partition
the identifier set without duplication. -/
theorem idempotent_pagination_witness :
    (((List.range (((["5", "4", "3", "2", "1"] : List String).length + 2 - 1) / 2)).map
        (fun i => pageIdsOf (list_mailbox ⟨ConnectOutcome.ok, true,
          some ["5", "4", "3", "2", "1"], fun _ => some plainHeader⟩
          "INBOX" (i + 1) 2))).flatten).Perm
      (["5", "4", "3", "2", "1"].map itemId) :=
  (idempotent_pagination ["5", "4", "3", "2", "1"] 2 "INBOX" (fun _ => plainHeader)
    (by decide) (by decide)).1

/-- C5 (listing degrades rather than aborts): authentication failures surface
as the distinct error; a failed select returns {total 0, items []}; a failed
search returns {total 0, items []}; an identifier of the page slice whose
fetch succeeds always yields its item, whatever other fetches do; and on a
concrete page [5,4,3] where the fetch of 4 fails, the page is returned with
items for 5 and 3 (4 is skipped, later identifiers still processed). -/
theorem listing_degrades :
    (∀ (se : Bool) (sr : Option (List String)) (f : String → Option HeaderInfo)
        (folder : String) (page size : Nat),
      list_mailbox ⟨ConnectOutcome.authFail, se, sr, f⟩ folder page size
        = Except.error ListError.authFailed) ∧
    (∀ (sr : Option (List String)) (f : String → Option HeaderInfo)
        (folder : String) (page size : Nat),
      list_mailbox ⟨ConnectOutcome.ok, false, sr, f⟩ folder page size
        = Except.ok { total := 0, items := [] }) ∧
    (∀ (f : String → Option HeaderInfo) (folder : String) (page size : Nat),
      list_mailbox ⟨ConnectOutcome.ok, true, none, f⟩ folder page size
        = Except.ok { total := 0, items := [] }) ∧
    (∀ (toks : List String) (f : String → Option HeaderInfo) (folder : String)
        (page size : Nat) (uid : String) (h : HeaderInfo),
      uid ∈ pageSlice (sortUids toks) page size → f uid = some h →
      ∃ pl, list_mailbox ⟨ConnectOutcome.ok, true, some toks, f⟩ folder page size
          = Except.ok pl ∧ mkItem folder uid h ∈ pl.items) ∧
    pageIdsOf (list_mailbox ⟨ConnectOutcome.ok, true, some ["5", "4", "3"],
        fun u => if u = "4" then none else some plainHeader⟩ "INBOX" 1 3)
      = [5, 3] := by
  refine ⟨fun _ _ _ _ _ _ => rfl, fun _ _ _ _ _ => rfl, fun _ _ _ _ => rfl, ?_, ?_⟩
  · intro toks f folder page size uid h hmem hf
    cases toks with
    | nil =>
      exfalso
      have hz : sortUids [] = [] := by
        unfold sortUids
        simp
      rw [hz] at hmem
      simp [pageSlice] at hmem
    | cons t ts =>
      refine ⟨_, rfl, ?_⟩
      show mkItem folder uid h ∈ (pageSlice (sortUids (t :: ts)) page size).filterMap
        (fun u => (f u).map (mkItem folder u))
      refine List.mem_filterMap.mpr ⟨uid, hmem, ?_⟩
      rw [hf]
      rfl
  · have hsort : sortUids ["5", "4", "3"] = ["5", "4", "3"] := by
      unfold sortUids
      rw [if_pos (by decide)]
      exact List.mergeSort_of_sorted (by decide)
    have h0 : pageIdsOf (list_mailbox ⟨ConnectOutcome.ok, true, some ["5", "4", "3"],
        fun u => if u = "4" then none else some plainHeader⟩ "INBOX" 1 3)
        = ((pageSlice (sortUids ["5", "4", "3"]) 1 3).filterMap
            (fun uid => (if uid = "4" then none else some plainHeader).map
              (mkItem "INBOX" uid))).map (fun it => it.id) := rfl
    rw [h0, hsort]
    rfl

/-- C5 witness: a page-slice identifier whose fetch succeeds contributes its
item to the returned page. -/
theorem listing_degrades_witness :
    ∃ pl, list_mailbox ⟨ConnectOutcome.ok, true, some ["7"], fun _ => some plainHeader⟩
        "INBOX" 1 2 = Except.ok pl ∧ mkItem "INBOX" "7" plainHeader ∈ pl.items := by
  refine listing_degrades.2.2.2.1 ["7"] (fun _ => some plainHeader) "INBOX" 1 2 "7"
    plainHeader ?_ rfl
  have h1 : sortUids ["7"] = ["7"] := by
    unfold sortUids
    rw [if_pos (by decide)]
    exact List.mergeSort_singleton "7"
  rw [h1]
  decide

/-! ### Lemmas about the mirror-step event log -/

/-- Connection counts add over concatenated logs. -/
theorem countConnects_append (l1 l2 : List ImapEv) :
    countConnects (l1 ++ l2) = countConnects l1 + countConnects l2 :=
  List.countP_append _ _ _

/-- The post-create ladder only prepends append events to its prefix, so the
head of the log is the head of the prefix. -/
theorem createPhase_head (e : MboxEnv) (m : String) (x : ImapEv) (pre : List ImapEv) :
    (createPhase e m (x :: pre)).2.head? = some x := by
  unfold createPhase ladderAfterCreate
  cases e.createOut <;> cases e.b1 <;> cases e.b2 <;> cases e.b3 <;> simp

/-- Every candidate-mailbox iteration starts with the append that passes both
flags and timestamp. -/
theorem tryMailbox_head (e : MboxEnv) (m : String) :
    (tryMailbox e m).2.head? = some (ImapEv.append m true true) := by
  unfold tryMailbox
  cases h1 : e.a1 <;> cases h2 : e.a2 <;> cases h3 : e.a3 <;>
    simp [createPhase_head]

/-- The post-create ladder records no connection events beyond its prefix. -/
theorem countConnects_ladderAfterCreate (e : MboxEnv) (m : String) (pre : List ImapEv) :
    countConnects (ladderAfterCreate e m pre).2 = countConnects pre := by
  unfold ladderAfterCreate
  cases e.b1 <;> cases e.b2 <;> cases e.b3 <;>
    simp [countConnects_append, countConnects, List.countP_cons]

/-- The create handler records no connection events beyond its prefix. -/
theorem countConnects_createPhase (e : MboxEnv) (m : String) (pre : List ImapEv) :
    countConnects (createPhase e m pre).2 = countConnects pre := by
  unfold createPhase
  cases e.createOut <;>
    simp only [countConnects_ladderAfterCreate, countConnects_append] <;> rfl

/-- One candidate-mailbox iteration records no connection events. -/
theorem countConnects_tryMailbox (e : MboxEnv) (m : String) :
    countConnects (tryMailbox e m).2 = 0 := by
  unfold tryMailbox
  cases e.a1 <;> cases e.a2 <;> cases e.a3 <;>
    simp only [countConnects_createPhase] <;> rfl

/-- The candidate loop records no connection events. -/
theorem countConnects_mailboxLoop (env : String → MboxEnv) (ms : List String) :
    countConnects (mailboxLoop env ms).2 = 0 := by
  induction ms with
  | nil => rfl
  | cons m rest ih =>
    unfold mailboxLoop
    rcases htm : tryMailbox (env m) m with ⟨res, log⟩
    have hlog : countConnects log = 0 := by
      have h := countConnects_tryMailbox (env m) m
      rw [htm] at h
      exact h
    cases res
    · exact hlog
    · show countConnects (log ++ (mailboxLoop env rest).2) = 0
      rw [countConnects_append, hlog, ih]
    · exact hlog

/-- Prepending a connection event adds one to the connection count. -/
theorem countConnects_cons_connect (b : Bool) (l : List ImapEv) :
    countConnects (ImapEv.connect b :: l) = countConnects l + 1 := by
  simp [countConnects, List.countP_cons]

/-- One connection cycle records exactly one connection attempt. -/
theorem countConnects_runCycle (c : CycleEnv) (isFirst : Bool) :
    countConnects (runCycle c isFirst).2.2 = 1 := by
  unfold runCycle
  by_cases h : c.connectOk = true
  · rw [if_pos h]
    show countConnects (ImapEv.connect true :: (mailboxLoop c.perMailbox
      (if isFirst = true then prioritizedMailboxes c.discovered else baseSentMailboxes)).2) = 1
    rw [countConnects_cons_connect, countConnects_mailboxLoop]
  · rw [if_neg h]
    rfl

/-! ### Claims C6, C7, C8, C9 -/

/-- C6 counterexample: a failed folder select on the Inbox listing does not
propagate as a generic fetch failure — the route answers success with an
empty page. -/
theorem folder_failure_policy_counterexample :
    get_inbox ⟨ConnectOutcome.ok, false, none, fun _ => none⟩ 1 50
      = HttpResult.okImap (Payload.mk 0 []) ∧
    HttpResult.okImap (Payload.mk 0 []) ≠ HttpResult.genericError :=
  ⟨rfl, by decide⟩

/-- C6 (amended): a live-server failure that raises from the listing (a
connection failure) propagates as the generic fetch failure on Inbox, Trash,
Archive and Spam, and is absorbed into the durable-store fallback on Sent and
Drafts; a failed select or search instead yields a successful empty page on
Inbox (and the durable-store fallback on Sent, via its total-0 branch). -/
theorem folder_failure_policy :
    (∀ (se : Bool) (sr : Option (List String)) (f : String → Option HeaderInfo)
        (page size : Nat),
      get_inbox ⟨ConnectOutcome.connFail, se, sr, f⟩ page size = HttpResult.genericError ∧
      get_trash ⟨ConnectOutcome.connFail, se, sr, f⟩ page size = HttpResult.genericError ∧
      get_archive ⟨ConnectOutcome.connFail, se, sr, f⟩ page size = HttpResult.genericError ∧
      get_spam ⟨ConnectOutcome.connFail, se, sr, f⟩ page size = HttpResult.genericError) ∧
    (∀ (se : Bool) (sr : Option (List String)) (f : String → Option HeaderInfo)
        (db : Payload) (page size : Nat),
      get_sent ⟨ConnectOutcome.connFail, se, sr, f⟩ db page size = HttpResult.okDb db ∧
      get_drafts ⟨ConnectOutcome.connFail, se, sr, f⟩ db page size = HttpResult.okDb db) ∧
    (∀ (sr : Option (List String)) (f : String → Option HeaderInfo) (page size : Nat),
      get_inbox ⟨ConnectOutcome.ok, false, sr, f⟩ page size
        = HttpResult.okImap (Payload.mk 0 [])) ∧
    (∀ (sr : Option (List String)) (f : String → Option HeaderInfo) (db : Payload)
        (page size : Nat),
      get_sent ⟨ConnectOutcome.ok, false, sr, f⟩ db page size = HttpResult.okDb db) :=
  ⟨fun _ _ _ _ _ => ⟨rfl, rfl, rfl, rfl⟩, fun _ _ _ _ _ _ => ⟨rfl, rfl⟩,
   fun _ _ _ _ => rfl, fun _ _ _ _ _ => rfl⟩

/-- C7 counterexample: a poll whose UNSEEN search returns identifier 7 while
RECENT returns nothing fetches no header summary at all — nothing is drawn
from the unseen set, and only the three searches ALL, UNSEEN, RECENT are
modelled because the source issues no date-filtered search. -/
theorem poll_strategy_counterexample :
    poll_for_new_emails ⟨ConnectOutcome.ok, true, SearchRes.found ["1", "7"],
        SearchRes.found ["7"], SearchRes.found [], fun _ => some plainHeader⟩
      = PollResult.ok (PollOk.mk 2 1 0 ["7"] [] [] []) := rfl

/-- C7 (amended): a poll searches ALL, UNSEEN and RECENT (no date-filtered
search exists in the service), and fetches header summaries for at most the
first 5 of the RECENT identifiers only — unseen-only identifiers are never
fetched; a raised search aborts the poll with the failure dictionary. -/
theorem poll_strategy (sa su sr : List String) (f : String → Option HeaderInfo) :
    poll_for_new_emails ⟨ConnectOutcome.ok, true, SearchRes.found sa, SearchRes.found su,
        SearchRes.found sr, f⟩
      = PollResult.ok (PollOk.mk sa.length su.length sr.length su sr (sr.take 5)
          ((sr.take 5).filterMap (fun uid =>
            (f uid).map (fun h => PollEmail.mk uid h.subject h.fromAddress h.isRead)))) ∧
    (∀ f2 : String → Option HeaderInfo,
      poll_for_new_emails ⟨ConnectOutcome.ok, true, SearchRes.raised, SearchRes.notOk,
        SearchRes.notOk, f2⟩ = PollResult.err) :=
  ⟨rfl, fun _ => rfl⟩

/-- C8 counterexample: when the first append raises a timeout, the candidate
loop stops without creating the folder — the claimed create-and-retry does
not happen for timeout exceptions. -/
theorem append_retry_ladder_counterexample :
    tryMailbox ⟨CallOutcome.raiseTimeout, CallOutcome.ok, CallOutcome.ok, CallOutcome.ok,
        CallOutcome.ok, CallOutcome.ok, CallOutcome.ok⟩ "Sent"
      = (MboxResult.stop, [ImapEv.append "Sent" true true]) ∧
    ImapEv.create "Sent" ∉ [ImapEv.append "Sent" true true] :=
  ⟨rfl, by decide⟩

/-- C8 (amended): every candidate iteration starts with an append carrying
flags and timestamp; a rejection retries without flags, then without flags
and timestamp; a non-timeout exception creates the folder and reruns the
same three-tier ladder; a timeout exception stops the candidate loop without
creating; the whole mirror step makes at most two connection attempts; and a
failed connection on the first cycle leads to the backoff sleep followed by
the second reconnect cycle. -/
theorem append_retry_ladder :
    (∀ (e : MboxEnv) (m : String),
      (tryMailbox e m).2.head? = some (ImapEv.append m true true)) ∧
    (∀ (a3 co b1 b2 b3 : CallOutcome) (m : String),
      tryMailbox ⟨CallOutcome.no, CallOutcome.ok, a3, co, b1, b2, b3⟩ m
        = (MboxResult.success, [ImapEv.append m true true, ImapEv.append m false true])) ∧
    (∀ (co b1 b2 b3 : CallOutcome) (m : String),
      tryMailbox ⟨CallOutcome.no, CallOutcome.no, CallOutcome.ok, co, b1, b2, b3⟩ m
        = (MboxResult.success, [ImapEv.append m true true, ImapEv.append m false true,
            ImapEv.append m false false])) ∧
    (∀ (a2 a3 b2 b3 : CallOutcome) (m : String),
      tryMailbox ⟨CallOutcome.raiseOther, a2, a3, CallOutcome.ok, CallOutcome.ok, b2, b3⟩ m
        = (MboxResult.success, [ImapEv.append m true true, ImapEv.create m,
            ImapEv.append m true true])) ∧
    (∀ (a2 a3 : CallOutcome) (m : String),
      tryMailbox ⟨CallOutcome.raiseOther, a2, a3, CallOutcome.ok, CallOutcome.no,
          CallOutcome.no, CallOutcome.no⟩ m
        = (MboxResult.failed, [ImapEv.append m true true, ImapEv.create m,
            ImapEv.append m true true, ImapEv.append m false true,
            ImapEv.append m false false])) ∧
    (∀ (a2 a3 co b1 b2 b3 : CallOutcome) (m : String),
      tryMailbox ⟨CallOutcome.raiseTimeout, a2, a3, co, b1, b2, b3⟩ m
        = (MboxResult.stop, [ImapEv.append m true true])) ∧
    (∀ c0 c1 : CycleEnv, countConnects (appendPipeline c0 c1).2 ≤ 2) ∧
    (∀ (disc : Option String) (pm : String → MboxEnv) (c1 : CycleEnv),
      appendPipeline ⟨false, disc, pm⟩ c1
        = ((runCycle c1 false).2.1,
            ImapEv.connect false :: ImapEv.sleepBackoff :: (runCycle c1 false).2.2)) := by
  refine ⟨tryMailbox_head, fun _ _ _ _ _ _ => rfl, fun _ _ _ _ _ => rfl,
    fun _ _ _ _ _ => rfl, fun _ _ _ => rfl, fun _ _ _ _ _ _ _ => rfl, ?_, fun _ _ _ => rfl⟩
  intro c0 c1
  unfold appendPipeline
  rcases h0 : runCycle c0 true with ⟨raised0, success0, log0⟩
  have hc0 : countConnects log0 = 1 := by
    have := countConnects_runCycle c0 true
    rw [h0] at this
    exact this
  rcases h1 : runCycle c1 false with ⟨raised1, success1, log1⟩
  have hc1 : countConnects log1 = 1 := by
    have h := countConnects_runCycle c1 false
    rw [h1] at h
    exact h
  have hsl : countConnects [ImapEv.sleepBackoff] = 0 := rfl
  have hni : countConnects ([] : List ImapEv) = 0 := rfl
  cases success0 <;> cases raised0 <;>
    simp only [countConnects_append, hc0, hc1, hsl, hni, Bool.false_eq_true, if_false,
      if_true] <;> omega

/-- C9 (authentication failures never masked): on every listing route —
including Sent and Drafts, which otherwise fall back to the durable store —
an IMAP authentication failure surfaces as the distinct reconnect error, and
list_mailbox itself raises it rather than returning an empty page. -/
theorem auth_never_masked (se : Bool) (sr : Option (List String))
    (f : String → Option HeaderInfo) (db : Payload) (page size : Nat) :
    get_inbox ⟨ConnectOutcome.authFail, se, sr, f⟩ page size = HttpResult.authError ∧
    get_sent ⟨ConnectOutcome.authFail, se, sr, f⟩ db page size = HttpResult.authError ∧
    get_drafts ⟨ConnectOutcome.authFail, se, sr, f⟩ db page size = HttpResult.authError ∧
    get_trash ⟨ConnectOutcome.authFail, se, sr, f⟩ page size = HttpResult.authError ∧
    get_archive ⟨ConnectOutcome.authFail, se, sr, f⟩ page size = HttpResult.authError ∧
    get_spam ⟨ConnectOutcome.authFail, se, sr, f⟩ page size = HttpResult.authError ∧
    list_mailbox ⟨ConnectOutcome.authFail, se, sr, f⟩ "Sent" page size
      = Except.error ListError.authFailed :=
  ⟨rfl, rfl, rfl, rfl, rfl, rfl, rfl⟩

end EmailEngine
